import Mathlib

/-!
# AssetWatchAPI — shallow embedding and verification

A shallow embedding of the AssetWatchAPI backend (`src/backend/src`): the
SQLAlchemy data model of `models.py` becomes plain row structures over lists,
the operations of `db.py`, `secutiry.py`, `router.py` and `main.py` become
Lean functions over an explicit store state, and Python exceptions become
explicit error results.  Prices and amounts (Python floats) are modelled as
rationals; timestamps as naturals; row identifiers as naturals drawn from a
`nextId` counter of the store.

The file is organised as definitions (the embedding and the concrete example
stores) followed by theorems (general lemmas about the embedding, then the
claim theorems with their witnesses and counterexamples).
-/

set_option autoImplicit false

namespace AssetWatch

/-! ## Definitions: data model, operations and example stores -/

/-- Row of the `user` table (`models.py`, class `User`). -/
structure UserRow where
  id : Nat
  username : String
  hash_password : String
deriving DecidableEq, Repr

/-- Row of the `currency` table (`models.py`, class `Currency`). -/
structure CurrencyRow where
  id : Nat
  name : String
  symbol : String
deriving DecidableEq, Repr

/-- Row of the `price_history` table (`models.py`, class `PriceHistory`). -/
structure PriceHistoryRow where
  id : Nat
  currency_id : Nat
  price : Rat
  timestamp : Nat
deriving DecidableEq, Repr

/-- Row of the `asset` table (`models.py`, class `Asset`). -/
structure AssetRow where
  id : Nat
  user_id : Nat
  currency_id : Nat
deriving DecidableEq, Repr

/-- Row of the `asset_price_history` table
(`models.py`, class `AssetAmountPriceHistory`). -/
structure AssetAmountPriceHistoryRow where
  id : Nat
  asset_id : Nat
  amount : Rat
  price : Rat
  timestamp : Nat
deriving DecidableEq, Repr

/-- The whole relational store: one list per table, in table (insertion)
order, plus a counter supplying fresh row identifiers. -/
structure DBState where
  users : List UserRow
  currencies : List CurrencyRow
  priceHistories : List PriceHistoryRow
  assets : List AssetRow
  assetAmountPriceHistories : List AssetAmountPriceHistoryRow
  nextId : Nat
deriving DecidableEq, Repr

/-- Python `max(l, key=key)` for a non-empty list (first maximal element
kept, as Python does); `none` models the `ValueError` raised on an empty
sequence.  Also models `ORDER BY timestamp DESC ... first()`. -/
def pyMaxBy {α : Type} (key : α → Nat) : List α → Option α
  | [] => none
  | h :: t => some (t.foldl (fun acc x => if key acc < key x then x else acc) h)

/-- One row of a fetched listings batch, as normalized by
`CMCHTTPClient.get_listings` (`http_client.py`): the CoinMarketCap fields
used by the refresh job, with the single batch timestamp attached. -/
structure ListingRow where
  name : String
  symbol : String
  price : Rat
  timestamp : Nat
deriving DecidableEq, Repr

/-- `db_session.query(Currency).filter_by(name=...).first()`
(`db.py` line 46). -/
def findCurrencyByName (db : DBState) (name : String) : Option CurrencyRow :=
  db.currencies.find? (fun c => c.name == name)

/-- One iteration of the loop body of `Database.update_price_histories`
(`db.py` lines 45-58): look up the Currency by name, create it when absent,
then insert a PriceHistory row for the batch row. -/
def refreshStep (db : DBState) (row : ListingRow) : DBState :=
  match findCurrencyByName db row.name with
  | some c =>
      { db with
          priceHistories :=
            db.priceHistories ++ [⟨db.nextId, c.id, row.price, row.timestamp⟩],
          nextId := db.nextId + 1 }
  | none =>
      let c : CurrencyRow := ⟨db.nextId, row.name, row.symbol⟩
      { db with
          currencies := db.currencies ++ [c],
          priceHistories :=
            db.priceHistories ++ [⟨db.nextId + 1, c.id, row.price, row.timestamp⟩],
          nextId := db.nextId + 2 }

/-- `Database.update_price_histories` (`db.py` lines 38-62), success path of
one refresh cycle: the fetched batch is folded into the store row by row and
committed as a whole. -/
def update_price_histories (db : DBState) (listings : List ListingRow) : DBState :=
  listings.foldl refreshStep db

/-- One entry of the list returned by `get_user_assets_info`
(`db.py` lines 160-165); the Python dict key written `current cost`
becomes the field `current_cost`. -/
structure AssetInfo where
  currency : String
  amount : Rat
  current_cost : Rat
  current_price : Rat
deriving DecidableEq, Repr

/-- Python exceptions that the embedded operations can surface. -/
inductive PyErr where
  | valueError (msg : String)
  | attributeError (msg : String)
deriving DecidableEq, Repr

/-- `db_session.query(Asset).filter_by(user_id=user.id).all()`
(`db.py` line 156). -/
def userAssets (db : DBState) (user : UserRow) : List AssetRow :=
  db.assets.filter (fun a => a.user_id == user.id)

/-- The `asset.amount_price_histories` relationship of an Asset
(`models.py`): the AssetAmountPriceHistory rows of that asset, in table
order. -/
def assetHistories (db : DBState) (a : AssetRow) : List AssetAmountPriceHistoryRow :=
  db.assetAmountPriceHistories.filter (fun h => h.asset_id == a.id)

/-- The loop body of `get_user_assets_info` for one Asset
(`db.py` lines 157-166): `max(asset.amount_price_histories, key=timestamp)`
twice (raising `ValueError` on an empty sequence), then the info dict built
from that row and `asset.currency.name` (an `AttributeError` would surface
on a dangling currency reference). -/
def assetInfo (db : DBState) (a : AssetRow) : Except PyErr AssetInfo :=
  match pyMaxBy (fun h => h.timestamp) (assetHistories db a) with
  | none => .error (.valueError "max arg is an empty sequence")
  | some row =>
      match db.currencies.find? (fun c => c.id == a.currency_id) with
      | none => .error (.attributeError "NoneType object has no attribute name")
      | some c => .ok ⟨c.name, row.amount, row.amount * row.price, row.price⟩

/-- The accumulation loop of `get_user_assets_info` (`db.py` lines 155-166):
the first exception aborts the whole call, otherwise the infos are collected
in asset order. -/
def getUserAssetsInfoGo (db : DBState) : List AssetRow → Except PyErr (List AssetInfo)
  | [] => .ok []
  | a :: rest =>
      match assetInfo db a with
      | .error e => .error e
      | .ok i =>
          match getUserAssetsInfoGo db rest with
          | .error e => .error e
          | .ok is => .ok (i :: is)

/-- `UserOperations.get_user_assets_info` (`db.py` lines 139-169). -/
def get_user_assets_info (db : DBState) (user : UserRow) :
    Except PyErr (List AssetInfo) :=
  getUserAssetsInfoGo db (userAssets db user)

/-- `UserOperations.get_user_by_username_from_db` (`db.py` lines 96-107). -/
def get_user_by_username_from_db (db : DBState) (username : String) : Option UserRow :=
  db.users.find? (fun u => u.username == username)

/-- `UserOperations.create_user` (`db.py` lines 109-137).  The check and the
insert run against two snapshots of the store (`dbCheck` at check time,
`dbInsert` at insert time), so the documented race is expressible; the
storage engine's unique constraint on `user.username` is enforced at the
insert.  The result is the store after the call together with either the new
row or the message of the raised exception. -/
def create_user (dbCheck dbInsert : DBState) (username hashed_password : String) :
    DBState × Except String UserRow :=
  match get_user_by_username_from_db dbCheck username with
  | some _ => (dbInsert, .error "User already exists")
  | none =>
      if dbInsert.users.any (fun u => u.username == username) then
        (dbInsert, .error "Database error: UNIQUE constraint failed: user.username")
      else
        let u : UserRow := ⟨dbInsert.nextId, username, hashed_password⟩
        ({ dbInsert with
             users := dbInsert.users ++ [u],
             nextId := dbInsert.nextId + 1 },
         .ok u)

/-- `AssetOperation.get_asset_from_db` (`db.py` lines 253-265). -/
def get_asset_from_db (db : DBState) (user : UserRow) (currency : CurrencyRow) :
    Option AssetRow :=
  db.assets.find? (fun a => a.user_id == user.id && a.currency_id == currency.id)

/-- `UserOperations.create_user_asset` (`db.py` lines 171-194): return the
existing Asset of the `(user, currency)` pair when there is one, otherwise
insert a fresh Asset and re-query it by id in a second session. -/
def create_user_asset (db : DBState) (user : UserRow) (currency : CurrencyRow) :
    DBState × Option AssetRow :=
  match get_asset_from_db db user currency with
  | some a => (db, some a)
  | none =>
      let a : AssetRow := ⟨db.nextId, user.id, currency.id⟩
      let db1 : DBState :=
        { db with assets := db.assets ++ [a], nextId := db.nextId + 1 }
      (db1, db1.assets.find? (fun x => x.id == a.id))

/-- `CurrencyOperation.get_latest_price_by_currency_from_db`
(`db.py` lines 222-238): the PriceHistory row of the currency with the
maximal timestamp, or `none` when the currency has no PriceHistory rows. -/
def get_latest_price_by_currency_from_db (db : DBState) (currency_id : Nat) :
    Option PriceHistoryRow :=
  pyMaxBy (fun p => p.timestamp)
    (db.priceHistories.filter (fun p => p.currency_id == currency_id))

/-- Outcome of `AssetOperation.add_asset_amount`: success with the new
store and the inserted row, the raised `ValueError` when the asset id does
not resolve, or the `AttributeError` crash from dereferencing `.price` on a
missing latest price (`db.py` line 286). -/
inductive AddAmountResult where
  | ok (db : DBState) (row : AssetAmountPriceHistoryRow)
  | valueError (msg : String)
  | attributeError (msg : String)
deriving DecidableEq, Repr

/-- `AssetOperation.add_asset_amount` (`db.py` lines 267-291): resolve the
asset by id (raising `ValueError` when absent), take
`get_latest_price_by_currency_from_db(...).price` — an `AttributeError` on
`None` when the currency has no PriceHistory rows — and insert an
AssetAmountPriceHistory row stamped `now` with that price snapshot. -/
def add_asset_amount (db : DBState) (asset_id : Nat) (amount : Rat) (now : Nat) :
    AddAmountResult :=
  match db.assets.find? (fun a => a.id == asset_id) with
  | none => .valueError "No asset found with ID"
  | some fresh_asset =>
      match get_latest_price_by_currency_from_db db fresh_asset.currency_id with
      | none => .attributeError "NoneType object has no attribute price"
      | some ph =>
          let row : AssetAmountPriceHistoryRow :=
            ⟨db.nextId, fresh_asset.id, amount, ph.price, now⟩
          .ok
            { db with
                assetAmountPriceHistories := db.assetAmountPriceHistories ++ [row],
                nextId := db.nextId + 1 }
            row

/-- One entry of `Database.get_listings_from_db` (`db.py` lines 79-80). -/
structure Listing where
  name : String
  symbol : String
  price : Rat
  sync_timestamp : Nat
deriving DecidableEq, Repr

/-- `Database.get_listings_from_db` (`db.py` lines 64-81): every Currency
with at least one PriceHistory row contributes its latest price, in
currency-table order; currencies with no history are skipped. -/
def get_listings_from_db (db : DBState) : List Listing :=
  db.currencies.filterMap (fun c =>
    match pyMaxBy (fun p => p.timestamp)
        (db.priceHistories.filter (fun p => p.currency_id == c.id)) with
    | none => none
    | some p => some ⟨c.name, c.symbol, p.price, p.timestamp⟩)

/-- Python list subscription `l[i]` for a possibly negative index `i`:
negative indices count from the end; `none` models the raised
`IndexError`. -/
def pyIndex {α : Type} (l : List α) (i : Int) : Option α :=
  if 0 ≤ i then l.get? i.toNat
  else if 0 ≤ i + l.length then l.get? (i + l.length).toNat
  else none

/-- HTTP outcome of `GET /cryptocurrencies/(currency_id)`. -/
inductive CryptoResult where
  | ok (x : Listing)
  | notFound
deriving DecidableEq, Repr

/-- `get_cryptocurrency` (`router.py` lines 29-46):
`DB.get_listings_from_db()[currency_id-1]`, answering 404 exactly when that
subscription raises `IndexError`. -/
def get_cryptocurrency (db : DBState) (currency_id : Int) : CryptoResult :=
  match pyIndex (get_listings_from_db db) (currency_id - 1) with
  | some x => .ok x
  | none => .notFound

/-- A JWT claim value (string or numeric date). -/
inductive ClaimVal where
  | str (s : String)
  | num (n : Nat)
deriving DecidableEq, Repr

/-- A JWT as handed to `jwt.decode`: either a well-formed token whose
payload was signed with some secret under some algorithm, or a string that
does not parse as a JWT at all. -/
inductive Token where
  | signed (claims : List (String × ClaimVal)) (secret : String) (alg : String)
  | malformed (s : String)
deriving DecidableEq, Repr

/-- The `jose.jwt.decode(token, secret, algorithms)` black box
(contract per §4.5 of the spec): signature and algorithm are verified and,
when an `exp` claim is present, it is checked against `now`; every failure
raises `JWTError`, success returns the payload claims. -/
def jwtDecode (token : Token) (secret : String) (algs : List String) (now : Nat) :
    Except String (List (String × ClaimVal)) :=
  match token with
  | .malformed _ => .error "JWTError: Not enough segments"
  | .signed claims s alg =>
      if s ≠ secret then .error "JWTError: Signature verification failed"
      else if ¬ algs.contains alg then .error "JWTError: The specified alg value is not allowed"
      else
        match claims.lookup "exp" with
        | some (.num e) =>
            if e < now then .error "JWTError: Signature has expired" else .ok claims
        | _ => .ok claims

/-- `jose.jwt.encode` of `Authentication.generate_JWT_token`
(`secutiry.py` lines 60-83): the payload is `encode_data` updated with the
`exp` and `sub` claims, signed with the configured secret and algorithm. -/
def generate_JWT_token (secret alg : String) (username : String)
    (encode_data : List (String × ClaimVal)) (expire : Nat) : Token :=
  Token.signed
    ((encode_data.filter (fun kv => kv.1 ≠ "exp" && kv.1 ≠ "sub")) ++
      [("exp", .num expire), ("sub", .str username)])
    secret alg

/-- `Authentication.get_username_by_token` (`secutiry.py` lines 106-121):
`jwt.decode` failures (`JWTError`) are caught and mapped to `None`; on
success the function returns `payload["sub"]` — a subscription that raises
`KeyError` past the caller when the payload has no `sub` claim. -/
def get_username_by_token (secret : String) (now : Nat) (token : Token) :
    Except String (Option ClaimVal) :=
  match jwtDecode token secret ["HS256"] now with
  | .error _ => .ok none
  | .ok payload =>
      match payload.lookup "sub" with
      | some v => .ok (some v)
      | none => .error "KeyError: sub"

/-- `Authentication.authenticate_user` (`secutiry.py` lines 85-104), with
the bcrypt `verify_password` black box passed as `verify`: a missing user
and a failed verification raise distinct exception messages. -/
def authenticate_user (verify : String → String → Bool) (db : DBState)
    (username password : String) : Except String UserRow :=
  match get_user_by_username_from_db db username with
  | none => .error ("User with username " ++ username ++ " not found")
  | some user =>
      if verify password user.hash_password then .ok user
      else .error "Incorrect password"

/-- HTTP outcome of `POST /token` (`main.py`, `login_for_access_token`):
200 with the token, 400 with the exception text, or an uncaught exception
surfacing as a server error. -/
inductive LoginResult where
  | okToken (token : Token)
  | badRequest (detail : String)
  | serverError (msg : String)
deriving DecidableEq, Repr

/-- The method names defined on class `Authentication`
(`secutiry.py`); Python resolves `auth.<name>` case-sensitively against
these. -/
def authenticationMethodNames : List String :=
  ["verify_password", "get_password_hash", "generate_JWT_token",
   "authenticate_user", "get_username_by_token"]

/-- `login_for_access_token` (`main.py` lines 50-73): authentication errors
are caught and become 400; on success the handler evaluates
`auth.generate_jwt_token(...)` — an attribute resolved against
`authenticationMethodNames`, raising `AttributeError` (uncaught, a server
error) when no method of that exact name exists. -/
def login_for_access_token (verify : String → String → Bool) (secret : String)
    (now ttlSeconds : Nat) (db : DBState) (username password : String) : LoginResult :=
  match authenticate_user verify db username password with
  | .error e => .badRequest e
  | .ok user =>
      if authenticationMethodNames.contains "generate_jwt_token" then
        .okToken (generate_JWT_token secret "HS256" user.username [] (now + ttlSeconds))
      else
        .serverError "AttributeError: Authentication object has no attribute generate_jwt_token"

/-- Example user row. -/
def exUser1 : UserRow := ⟨0, "alice", "h"⟩

/-- Example store: `alice` holds one Bitcoin asset with one recorded
amount/price row (amount 2 at price 10). -/
def exDb1 : DBState :=
  ⟨[exUser1], [⟨1, "Bitcoin", "BTC"⟩], [⟨2, 1, 10, 4⟩], [⟨3, 0, 1⟩],
    [⟨4, 3, 2, 10, 5⟩], 5⟩

/-- Example user row for the empty-history store. -/
def exUser3 : UserRow := ⟨0, "bob", "h"⟩

/-- Example store: `bob` owns an Asset that has zero
AssetAmountPriceHistory rows. -/
def exDb3 : DBState :=
  ⟨[exUser3], [⟨2, "Bitcoin", "BTC"⟩], [], [⟨1, 0, 2⟩], [], 3⟩

/-- Example store for the refresh-cycle witness: one pre-existing
currency. -/
def exDb4 : DBState := ⟨[], [⟨0, "Bitcoin", "BTC"⟩], [], [], [], 1⟩

/-- Example fetched batch: two rows with two distinct names, one of which
pre-exists in `exDb4`. -/
def exListings4 : List ListingRow :=
  [⟨"Bitcoin", "BTC", 7, 9⟩, ⟨"Ether", "ETH", 3, 9⟩]

/-- Example user for the create-asset witness. -/
def exUser5 : UserRow := ⟨0, "alice", "h"⟩

/-- Example currency for the create-asset witness. -/
def exCur5 : CurrencyRow := ⟨1, "Bitcoin", "BTC"⟩

/-- Example store with no assets yet. -/
def exDb5 : DBState := ⟨[exUser5], [exCur5], [], [], [], 2⟩

/-- Empty store, the snapshot seen by the pre-insert existence check of the
losing side of the registration race. -/
def exDb6check : DBState := ⟨[], [], [], [], [], 0⟩

/-- Store at insert time: the winning registration has already inserted
`alice`. -/
def exDb6insert : DBState := ⟨[⟨0, "alice", "h"⟩], [], [], [], [], 1⟩

/-- Store holding an Asset whose Currency has zero PriceHistory rows (the
currency was never refreshed). -/
def exDb7 : DBState :=
  ⟨[⟨0, "alice", "h"⟩], [⟨1, "Bitcoin", "BTC"⟩], [], [⟨2, 0, 1⟩], [], 3⟩

/-- The same store after one refresh gave Bitcoin a price of 9. -/
def exDb7b : DBState :=
  ⟨[⟨0, "alice", "h"⟩], [⟨1, "Bitcoin", "BTC"⟩], [⟨3, 1, 9, 50⟩], [⟨2, 0, 1⟩], [], 4⟩

/-- The bcrypt verification black box for the login examples: accepts
exactly password `pw` against stored hash `H`. -/
def exVerify : String → String → Bool := fun p h => p == "pw" && h == "H"

/-- Store holding the registered user `alice` with password hash `H`. -/
def exDb2 : DBState := ⟨[⟨0, "alice", "H"⟩], [], [], [], [], 1⟩

/-- Store whose listing has exactly one entry (Bitcoin at 50000). -/
def exDb8 : DBState := ⟨[], [⟨0, "Bitcoin", "BTC"⟩], [⟨1, 0, 50000, 7⟩], [], [], 2⟩

/-- A token signed with the right secret and algorithm whose payload has an
`exp` claim but no `sub` claim. -/
def exTok9 : Token := .signed [("exp", .num 99)] "s" "HS256"

/-- A token signed with the right secret carrying a `sub` claim. -/
def exTok9b : Token := .signed [("sub", .str "alice")] "s" "HS256"

/-- A verification black box that rejects every password. -/
def exVerifyFalse : String → String → Bool := fun _ _ => false

/-- Store holding only the user `alice`. -/
def exDb10 : DBState := ⟨[⟨0, "alice", "H"⟩], [], [], [], [], 1⟩

/-! ## Theorems: general lemmas about the embedding -/

theorem pyMaxBy_foldl_cases {α : Type} (key : α → Nat) :
    ∀ (t : List α) (acc : α),
      t.foldl (fun a x => if key a < key x then x else a) acc = acc ∨
      t.foldl (fun a x => if key a < key x then x else a) acc ∈ t := by
  intro t
  induction t with
  | nil => intro acc; exact Or.inl rfl
  | cons h t ih =>
    intro acc
    simp only [List.foldl_cons]
    rcases ih (if key acc < key h then h else acc) with h1 | h1
    · rw [h1]
      by_cases hc : key acc < key h
      · simp [hc]
      · simp [hc]
    · exact Or.inr (List.mem_cons_of_mem _ h1)

theorem pyMaxBy_foldl_le {α : Type} (key : α → Nat) :
    ∀ (t : List α) (acc : α),
      key acc ≤ key (t.foldl (fun a x => if key a < key x then x else a) acc) ∧
      ∀ y ∈ t, key y ≤ key (t.foldl (fun a x => if key a < key x then x else a) acc) := by
  intro t
  induction t with
  | nil => intro acc; exact ⟨Nat.le_refl _, by intro y hy; cases hy⟩
  | cons h t ih =>
    intro acc
    simp only [List.foldl_cons]
    rcases ih (if key acc < key h then h else acc) with ⟨hacc, hall⟩
    constructor
    · refine Nat.le_trans ?_ hacc
      by_cases hc : key acc < key h
      · simp [hc]; omega
      · simp [hc]
    · intro y hy
      rcases List.mem_cons.mp hy with rfl | hy
      · refine Nat.le_trans ?_ hacc
        by_cases hc : key acc < key y
        · simp [hc]
        · simp [hc]; omega
      · exact hall y hy

/-- The element returned by `pyMaxBy` belongs to the list. -/
theorem pyMaxBy_mem {α : Type} (key : α → Nat) (l : List α) (x : α)
    (hx : pyMaxBy key l = some x) : x ∈ l := by
  cases l with
  | nil => cases hx
  | cons h t =>
    simp only [pyMaxBy, Option.some.injEq] at hx
    rcases pyMaxBy_foldl_cases key t h with h1 | h1
    · rw [hx] at h1; rw [h1]; exact List.mem_cons_self _ _
    · rw [hx] at h1; exact List.mem_cons_of_mem _ h1

/-- The element returned by `pyMaxBy` has the maximal key. -/
theorem pyMaxBy_le {α : Type} (key : α → Nat) (l : List α) (x : α)
    (hx : pyMaxBy key l = some x) : ∀ y ∈ l, key y ≤ key x := by
  cases l with
  | nil => cases hx
  | cons h t =>
    simp only [pyMaxBy, Option.some.injEq] at hx
    rcases pyMaxBy_foldl_le key t h with ⟨hacc, hall⟩
    intro y hy
    rcases List.mem_cons.mp hy with rfl | hy
    · rw [← hx]; exact hacc
    · rw [← hx]; exact hall y hy

/-- `pyMaxBy` is `none` exactly on the empty list. -/
theorem pyMaxBy_eq_none {α : Type} (key : α → Nat) (l : List α) :
    pyMaxBy key l = none ↔ l = [] := by
  cases l <;> simp [pyMaxBy]

theorem refreshStep_priceHistories_length (db : DBState) (row : ListingRow) :
    (refreshStep db row).priceHistories.length = db.priceHistories.length + 1 := by
  unfold refreshStep
  cases findCurrencyByName db row.name <;> simp

theorem refreshStep_currencies_length (db : DBState) (row : ListingRow) :
    (refreshStep db row).currencies.length ≤ db.currencies.length + 1 := by
  unfold refreshStep
  cases findCurrencyByName db row.name <;> simp

theorem refreshStep_currencies_of_found (db : DBState) (row : ListingRow)
    (h : ∃ c ∈ db.currencies, c.name = row.name) :
    (refreshStep db row).currencies = db.currencies := by
  unfold refreshStep
  rcases h with ⟨c, hc, hname⟩
  have : findCurrencyByName db row.name ≠ none := by
    intro hnone
    have := List.find?_eq_none.mp hnone c hc
    simp [hname] at this
  cases hfind : findCurrencyByName db row.name with
  | none => exact absurd hfind this
  | some c0 => simp

theorem update_priceHistories_length (db : DBState) (l : List ListingRow) :
    (update_price_histories db l).priceHistories.length =
      db.priceHistories.length + l.length := by
  induction l generalizing db with
  | nil => simp [update_price_histories]
  | cons r t ih =>
    have h1 := refreshStep_priceHistories_length db r
    have h2 := ih (refreshStep db r)
    simp only [update_price_histories, List.foldl_cons, List.length_cons] at h2 ⊢
    omega

theorem update_currencies_length (db : DBState) (l : List ListingRow) :
    (update_price_histories db l).currencies.length ≤
      db.currencies.length + l.length := by
  induction l generalizing db with
  | nil => simp [update_price_histories]
  | cons r t ih =>
    have h1 := refreshStep_currencies_length db r
    have h2 := ih (refreshStep db r)
    simp only [update_price_histories, List.foldl_cons, List.length_cons] at h2 ⊢
    omega

theorem update_currencies_of_all_found (db : DBState) (l : List ListingRow)
    (h : ∀ r ∈ l, ∃ c ∈ db.currencies, c.name = r.name) :
    (update_price_histories db l).currencies = db.currencies := by
  induction l generalizing db with
  | nil => simp [update_price_histories]
  | cons r t ih =>
    have hstep : (refreshStep db r).currencies = db.currencies :=
      refreshStep_currencies_of_found db r (h r (List.mem_cons_self _ _))
    have hrest : ∀ r0 ∈ t, ∃ c ∈ (refreshStep db r).currencies, c.name = r0.name := by
      intro r0 hr0
      rw [hstep]
      exact h r0 (List.mem_cons_of_mem _ hr0)
    have := ih (refreshStep db r) hrest
    simp only [update_price_histories, List.foldl_cons] at this ⊢
    rw [this, hstep]

theorem getUserAssetsInfoGo_ok_mem (db : DBState) :
    ∀ (l : List AssetRow) (infos : List AssetInfo),
      getUserAssetsInfoGo db l = .ok infos →
      ∀ info ∈ infos, ∃ a ∈ l, assetInfo db a = .ok info := by
  intro l
  induction l with
  | nil =>
    intro infos h info hinfo
    simp only [getUserAssetsInfoGo] at h
    cases h
    cases hinfo
  | cons a rest ih =>
    intro infos h info hinfo
    simp only [getUserAssetsInfoGo] at h
    cases ha : assetInfo db a with
    | error e => rw [ha] at h; cases h
    | ok i =>
      rw [ha] at h
      cases hrest : getUserAssetsInfoGo db rest with
      | error e => rw [hrest] at h; cases h
      | ok is =>
        rw [hrest] at h
        cases h
        rcases List.mem_cons.mp hinfo with rfl | hmem
        · exact ⟨a, List.mem_cons_self _ _, ha⟩
        · rcases ih is hrest info hmem with ⟨a0, ha0, hinfo0⟩
          exact ⟨a0, List.mem_cons_of_mem _ ha0, hinfo0⟩

theorem getUserAssetsInfoGo_ok_all (db : DBState) :
    ∀ (l : List AssetRow) (infos : List AssetInfo),
      getUserAssetsInfoGo db l = .ok infos →
      ∀ a ∈ l, ∃ i, assetInfo db a = .ok i := by
  intro l
  induction l with
  | nil => intro infos _ a ha; cases ha
  | cons a rest ih =>
    intro infos h a0 ha0
    simp only [getUserAssetsInfoGo] at h
    cases ha : assetInfo db a with
    | error e => rw [ha] at h; cases h
    | ok i =>
      rw [ha] at h
      cases hrest : getUserAssetsInfoGo db rest with
      | error e => rw [hrest] at h; cases h
      | ok is =>
        rcases List.mem_cons.mp ha0 with rfl | hmem
        · exact ⟨i, ha⟩
        · exact ih is hrest a0 hmem

theorem assetInfo_ok_shape (db : DBState) (a : AssetRow) (info : AssetInfo)
    (h : assetInfo db a = .ok info) :
    ∃ row, pyMaxBy (fun x => x.timestamp) (assetHistories db a) = some row ∧
      info.amount = row.amount ∧ info.current_price = row.price ∧
      info.current_cost = row.amount * row.price := by
  unfold assetInfo at h
  cases hmax : pyMaxBy (fun x => x.timestamp) (assetHistories db a) with
  | none => rw [hmax] at h; cases h
  | some row =>
    rw [hmax] at h
    cases hfind : db.currencies.find? (fun c => c.id == a.currency_id) with
    | none => rw [hfind] at h; cases h
    | some c =>
      rw [hfind] at h
      cases h
      exact ⟨row, rfl, rfl, rfl, rfl⟩

theorem find?_append_of_none {α : Type} (p : α → Bool) :
    ∀ (l1 l2 : List α), l1.find? p = none → (l1 ++ l2).find? p = l2.find? p := by
  intro l1
  induction l1 with
  | nil => intro l2 _; rfl
  | cons h t ih =>
    intro l2 hn
    cases hp : p h with
    | true => rw [List.find?_cons_of_pos _ hp] at hn; cases hn
    | false =>
      rw [List.find?_cons_of_neg _ (by simp [hp])] at hn
      rw [List.cons_append, List.find?_cons_of_neg _ (by simp [hp])]
      exact ih l2 hn

theorem pyIndex_none_high {α : Type} (l : List α) (i : Int)
    (h : (l.length : Int) ≤ i) : pyIndex l i = none := by
  unfold pyIndex
  rw [if_pos (by omega)]
  exact List.get?_eq_none.mpr (by omega)

theorem pyIndex_none_low {α : Type} (l : List α) (i : Int)
    (h : i + l.length < 0) : pyIndex l i = none := by
  unfold pyIndex
  rw [if_neg (by omega), if_neg (by omega)]

theorem pyIndex_nonneg {α : Type} (l : List α) (i : Int) (h0 : 0 ≤ i)
    (hlt : i < l.length) :
    ∃ x, l.get? i.toNat = some x ∧ pyIndex l i = some x := by
  have hn : i.toNat < l.length := by omega
  refine ⟨l.get ⟨i.toNat, hn⟩, List.get?_eq_get hn, ?_⟩
  unfold pyIndex
  rw [if_pos h0]
  exact List.get?_eq_get hn

theorem pyIndex_neg {α : Type} (l : List α) (i : Int) (h0 : i < 0)
    (hge : 0 ≤ i + l.length) :
    ∃ x, l.get? (i + l.length).toNat = some x ∧ pyIndex l i = some x := by
  have hn : (i + l.length).toNat < l.length := by omega
  refine ⟨l.get ⟨(i + l.length).toNat, hn⟩, List.get?_eq_get hn, ?_⟩
  unfold pyIndex
  rw [if_neg (by omega), if_pos hge]
  exact List.get?_eq_get hn

/-! ## Theorems: the claims -/

/-- **C1.** For every entry returned by `user_assets_info(user)`, the
reported current cost equals the reported amount multiplied by the reported
current_price, and amount and price are both taken from the single
AssetAmountPriceHistory row with the maximum timestamp for that asset
(timestamps of one asset's rows are pairwise distinct, as the unique
constraint on `(asset_id, timestamp)` guarantees). -/
theorem claim1_user_assets_info_valuation (db : DBState) (user : UserRow)
    (infos : List AssetInfo)
    (hok : get_user_assets_info db user = .ok infos)
    (hts : ∀ a ∈ userAssets db user,
      (assetHistories db a).Pairwise (fun x y => x.timestamp ≠ y.timestamp)) :
    ∀ info ∈ infos,
      info.current_cost = info.amount * info.current_price ∧
      ∃ a ∈ userAssets db user, ∃ row ∈ assetHistories db a,
        (∀ r ∈ assetHistories db a, r.timestamp ≤ row.timestamp) ∧
        (∀ r ∈ assetHistories db a, r.timestamp = row.timestamp → r = row) ∧
        info.amount = row.amount ∧ info.current_price = row.price := by
  intro info hinfo
  rcases getUserAssetsInfoGo_ok_mem db (userAssets db user) infos hok info hinfo with
    ⟨a, ha, hai⟩
  rcases assetInfo_ok_shape db a info hai with ⟨row, hmax, hamt, hprice, hcost⟩
  have hrowmem := pyMaxBy_mem _ _ _ hmax
  refine ⟨by rw [hcost, hamt, hprice], a, ha, row, hrowmem,
    pyMaxBy_le _ _ _ hmax, ?_, hamt, hprice⟩
  intro r hr heq
  by_contra hne
  have hsym : Symmetric (fun x y : AssetAmountPriceHistoryRow =>
      x.timestamp ≠ y.timestamp) := fun x y h h0 => h h0.symm
  exact List.Pairwise.forall hsym (hts a ha) hr hrowmem hne heq

/-- Witness for C1 at the concrete store `exDb1`. -/
theorem claim1_witness :
    (⟨"Bitcoin", 2, 20, 10⟩ : AssetInfo).current_cost =
      (⟨"Bitcoin", 2, 20, 10⟩ : AssetInfo).amount *
        (⟨"Bitcoin", 2, 20, 10⟩ : AssetInfo).current_price ∧
    ∃ a ∈ userAssets exDb1 exUser1, ∃ row ∈ assetHistories exDb1 a,
      (∀ r ∈ assetHistories exDb1 a, r.timestamp ≤ row.timestamp) ∧
      (∀ r ∈ assetHistories exDb1 a, r.timestamp = row.timestamp → r = row) ∧
      (⟨"Bitcoin", 2, 20, 10⟩ : AssetInfo).amount = row.amount ∧
      (⟨"Bitcoin", 2, 20, 10⟩ : AssetInfo).current_price = row.price := by
  have h := claim1_user_assets_info_valuation exDb1 exUser1
    [⟨"Bitcoin", 2, 20, 10⟩]
    (by
      simp only [get_user_assets_info, userAssets, exDb1, exUser1,
        getUserAssetsInfoGo, assetInfo, assetHistories, pyMaxBy, List.filter,
        List.find?, List.foldl]
      norm_num)
    (by decide)
  exact h ⟨"Bitcoin", 2, 20, 10⟩ (List.mem_singleton.mpr rfl)

/-- **C3.** A user owning an Asset with zero AssetAmountPriceHistory rows
makes `user_assets_info` fail as a whole: the call reports an error and
never returns a (partial) list. -/
theorem claim3_empty_history_fails (db : DBState) (user : UserRow)
    (a : AssetRow) (ha : a ∈ userAssets db user)
    (hempty : assetHistories db a = []) :
    ∃ e, get_user_assets_info db user = .error e := by
  cases hres : get_user_assets_info db user with
  | error e => exact ⟨e, rfl⟩
  | ok infos =>
    exfalso
    rcases getUserAssetsInfoGo_ok_all db (userAssets db user) infos hres a ha with
      ⟨i, hi⟩
    unfold assetInfo at hi
    rw [hempty] at hi
    simp [pyMaxBy] at hi

/-- Witness for C3 at the concrete store `exDb3`. -/
theorem claim3_witness : ∃ e, get_user_assets_info exDb3 exUser3 = .error e :=
  claim3_empty_history_fails exDb3 exUser3 ⟨1, 0, 2⟩ (by decide) rfl

/-- **C4.** A successful refresh cycle over a batch of N rows with N
distinct currency names grows the store by exactly N PriceHistory rows and
at most N Currency rows, and by exactly zero Currency rows when every name
in the batch already exists. -/
theorem claim4_refresh_row_counts (db : DBState) (l : List ListingRow)
    (_hdistinct : (l.map ListingRow.name).Nodup) :
    (update_price_histories db l).priceHistories.length =
      db.priceHistories.length + l.length ∧
    (update_price_histories db l).currencies.length ≤
      db.currencies.length + l.length ∧
    ((∀ r ∈ l, ∃ c ∈ db.currencies, c.name = r.name) →
      (update_price_histories db l).currencies.length = db.currencies.length) := by
  refine ⟨update_priceHistories_length db l, update_currencies_length db l, ?_⟩
  intro h
  rw [update_currencies_of_all_found db l h]

/-- Witness for C4 at the concrete store `exDb4` and batch `exListings4`. -/
theorem claim4_witness :
    (update_price_histories exDb4 exListings4).priceHistories.length =
      exDb4.priceHistories.length + exListings4.length ∧
    (update_price_histories exDb4 exListings4).currencies.length ≤
      exDb4.currencies.length + exListings4.length ∧
    ((∀ r ∈ exListings4, ∃ c ∈ exDb4.currencies, c.name = r.name) →
      (update_price_histories exDb4 exListings4).currencies.length =
        exDb4.currencies.length) :=
  claim4_refresh_row_counts exDb4 exListings4 (by decide)

/-- **C5.** `create_user_asset` is idempotent: when an Asset for the
`(user, currency)` pair already exists the existing Asset is returned and
the store is unchanged, and two calls in sequence return the same Asset row
both times while the second leaves the asset table unchanged.  (Asset ids
below `nextId` is the freshness invariant of identifier assignment.) -/
theorem claim5_create_asset_idempotent (db : DBState) (user : UserRow)
    (currency : CurrencyRow)
    (hwf : ∀ a ∈ db.assets, a.id < db.nextId) :
    (∀ a0, get_asset_from_db db user currency = some a0 →
      create_user_asset db user currency = (db, some a0)) ∧
    ∃ a1, (create_user_asset db user currency).2 = some a1 ∧
      (create_user_asset (create_user_asset db user currency).1 user currency).2 =
        some a1 ∧
      (create_user_asset (create_user_asset db user currency).1 user currency).1.assets =
        (create_user_asset db user currency).1.assets := by
  cases hfind : get_asset_from_db db user currency with
  | some a =>
    constructor
    · intro a0 h0
      obtain rfl : a = a0 := by injection h0
      simp [create_user_asset, hfind]
    · refine ⟨a, ?_, ?_, ?_⟩ <;> simp [create_user_asset, hfind]
  | none =>
    constructor
    · intro a0 h0
      cases h0
    · have hids : db.assets.find? (fun x => x.id == db.nextId) = none := by
        apply List.find?_eq_none.mpr
        intro x hx
        simp only [beq_iff_eq]
        exact Nat.ne_of_lt (hwf x hx)
      have hrequery :
          (db.assets ++ [(⟨db.nextId, user.id, currency.id⟩ : AssetRow)]).find?
            (fun x => x.id == db.nextId) =
            some ⟨db.nextId, user.id, currency.id⟩ := by
        rw [find?_append_of_none _ _ _ hids]
        simp [List.find?]
      have hpair :
          (db.assets ++ [(⟨db.nextId, user.id, currency.id⟩ : AssetRow)]).find?
            (fun x => x.user_id == user.id && x.currency_id == currency.id) =
            some ⟨db.nextId, user.id, currency.id⟩ := by
        rw [find?_append_of_none _ _ _ hfind]
        simp [List.find?]
      refine ⟨⟨db.nextId, user.id, currency.id⟩, ?_, ?_, ?_⟩
      · simp only [create_user_asset, hfind]
        exact hrequery
      · simp only [create_user_asset, hfind]
        simp only [get_asset_from_db, hpair]
      · simp only [create_user_asset, hfind]
        simp only [get_asset_from_db, hpair]

/-- Witness for C5 at the concrete store `exDb5`. -/
theorem claim5_witness :
    (∀ a0, get_asset_from_db exDb5 exUser5 exCur5 = some a0 →
      create_user_asset exDb5 exUser5 exCur5 = (exDb5, some a0)) ∧
    ∃ a1, (create_user_asset exDb5 exUser5 exCur5).2 = some a1 ∧
      (create_user_asset (create_user_asset exDb5 exUser5 exCur5).1 exUser5 exCur5).2 =
        some a1 ∧
      (create_user_asset (create_user_asset exDb5 exUser5 exCur5).1 exUser5 exCur5).1.assets =
        (create_user_asset exDb5 exUser5 exCur5).1.assets :=
  claim5_create_asset_idempotent exDb5 exUser5 exCur5 (by decide)

/-- **C6 counterexample.** In the race where the existence check passes but
the insert hits the unique-username constraint, `create_user` surfaces the
caught engine error as a generic `Database error: ...` exception — not as
the `User already exists` (AlreadyExists) error the claim requires. -/
theorem claim6_counterexample :
    (create_user exDb6check exDb6insert "alice" "h2").2 =
      Except.error "Database error: UNIQUE constraint failed: user.username" ∧
    "Database error: UNIQUE constraint failed: user.username" ≠
      "User already exists" :=
  ⟨rfl, by decide⟩

/-- **C6 amended.** `create_user` fails with `User already exists` when the
check-time snapshot holds the username; when the check passes but the
insert-time snapshot violates the unique-username constraint, the violation
is caught and surfaces as the generic `Database error: ...` exception
(distinct from AlreadyExists), not as an uncaught crash; on either failure
no User row is added. -/
theorem claim6_create_user_errors (dbCheck dbInsert : DBState)
    (username hashed : String) :
    ((∃ u, get_user_by_username_from_db dbCheck username = some u) →
      create_user dbCheck dbInsert username hashed =
        (dbInsert, .error "User already exists")) ∧
    (get_user_by_username_from_db dbCheck username = none →
      (∃ u ∈ dbInsert.users, u.username = username) →
      create_user dbCheck dbInsert username hashed =
        (dbInsert, .error "Database error: UNIQUE constraint failed: user.username")) ∧
    (∀ e, (create_user dbCheck dbInsert username hashed).2 = .error e →
      (create_user dbCheck dbInsert username hashed).1 = dbInsert) := by
  refine ⟨?_, ?_, ?_⟩
  · rintro ⟨u, hu⟩
    simp [create_user, hu]
  · intro hnone hexists
    rcases hexists with ⟨u, hu, hname⟩
    have hany : dbInsert.users.any (fun v => v.username == username) = true :=
      List.any_eq_true.mpr ⟨u, hu, by simp [hname]⟩
    simp [create_user, hnone, hany]
  · intro e he
    unfold create_user at he ⊢
    cases hc : get_user_by_username_from_db dbCheck username with
    | some u => simp [hc]
    | none =>
      cases hany : dbInsert.users.any (fun v => v.username == username) with
      | true => simp
      | false =>
        rw [hany] at he
        simp [hc] at he

/-- Witness for the amended C6: a registration of an existing username
fails with the AlreadyExists-style message. -/
theorem claim6_witness :
    create_user exDb6insert exDb6insert "alice" "h3" =
      (exDb6insert, .error "User already exists") :=
  (claim6_create_user_errors exDb6insert exDb6insert "alice" "h3").1
    ⟨⟨0, "alice", "h"⟩, rfl⟩

/-- **C7.** `add_asset_amount` on an existing Asset whose Currency has zero
PriceHistory rows crashes with an `AttributeError` (dereferencing `.price`
on the `None` returned by `get_latest_price_by_currency_from_db`) instead
of handling the absent price as a reportable outcome; once a latest price
exists, it inserts the one new AssetAmountPriceHistory row stamped with the
current instant and that price snapshot. -/
theorem claim7_absent_price_crashes :
    add_asset_amount exDb7 2 5 100 =
      .attributeError "NoneType object has no attribute price" ∧
    add_asset_amount exDb7b 2 5 100 =
      .ok ⟨[⟨0, "alice", "h"⟩], [⟨1, "Bitcoin", "BTC"⟩], [⟨3, 1, 9, 50⟩],
            [⟨2, 0, 1⟩], [⟨4, 2, 5, 9, 100⟩], 5⟩
        ⟨4, 2, 5, 9, 100⟩ :=
  ⟨rfl, rfl⟩

/-- **C2.** A `POST /token` request with a stored username and the matching
password authenticates, but the handler then crashes resolving
`auth.generate_jwt_token` (the class only defines `generate_JWT_token`), so
the request surfaces a server error instead of the claimed 200 response
with a bearer token. -/
theorem claim2_login_attribute_error :
    authenticate_user exVerify exDb2 "alice" "pw" = .ok ⟨0, "alice", "H"⟩ ∧
    login_for_access_token exVerify "secret" 0 1800 exDb2 "alice" "pw" =
      .serverError
        "AttributeError: Authentication object has no attribute generate_jwt_token" :=
  ⟨rfl, rfl⟩

/-- **C8 counterexample.** Against a store with exactly one listing,
`GET /cryptocurrencies/0` — an id ≤ 0, which the claim says must 404 —
returns the listing: Python evaluates `listings[0-1]` as negative indexing
from the end. -/
theorem claim8_counterexample :
    get_cryptocurrency exDb8 0 = .ok ⟨"Bitcoin", "BTC", 50000, 7⟩ ∧
    get_cryptocurrency exDb8 0 ≠ .notFound := by
  constructor
  · rfl
  · intro h
    have : CryptoResult.ok (⟨"Bitcoin", "BTC", 50000, 7⟩ : Listing) = .notFound := by
      rw [← h]; rfl
    cases this

/-- **C8 amended.** `GET /cryptocurrencies/(id)` treats `id` as a 1-based
ordinal: for `1 ≤ id ≤ len` it returns the id-th listing and for
`id > len` it fails with 404; but for `id ≤ 0` Python negative indexing
applies, so for `1 - len ≤ id ≤ 0` it returns the listing at offset
`id - 1 + len` (counting from 0) and only for `id < 1 - len` does it fail
with 404. -/
theorem claim8_get_cryptocurrency_ranges (db : DBState) (i : Int) :
    (((get_listings_from_db db).length : Int) < i ∨
        i < 1 - (get_listings_from_db db).length →
      get_cryptocurrency db i = .notFound) ∧
    (1 ≤ i → i ≤ (get_listings_from_db db).length →
      ∃ x, (get_listings_from_db db).get? (i - 1).toNat = some x ∧
        get_cryptocurrency db i = .ok x) ∧
    (1 - (get_listings_from_db db).length ≤ i → i ≤ 0 →
      ∃ x, (get_listings_from_db db).get?
          (i - 1 + (get_listings_from_db db).length).toNat = some x ∧
        get_cryptocurrency db i = .ok x) := by
  refine ⟨?_, ?_, ?_⟩
  · intro h
    unfold get_cryptocurrency
    rcases h with h | h
    · rw [pyIndex_none_high _ _ (by omega)]
    · rw [pyIndex_none_low _ _ (by omega)]
  · intro h1 h2
    rcases pyIndex_nonneg (get_listings_from_db db) (i - 1) (by omega) (by omega)
      with ⟨x, hget, hpy⟩
    refine ⟨x, hget, ?_⟩
    unfold get_cryptocurrency
    rw [hpy]
  · intro h1 h2
    rcases pyIndex_neg (get_listings_from_db db) (i - 1) (by omega) (by omega)
      with ⟨x, hget, hpy⟩
    refine ⟨x, hget, ?_⟩
    unfold get_cryptocurrency
    rw [hpy]

/-- Witness for the amended C8: id 1 against the one-listing store returns
the first listing. -/
theorem claim8_witness :
    ∃ x, (get_listings_from_db exDb8).get? ((1 : Int) - 1).toNat = some x ∧
      get_cryptocurrency exDb8 1 = .ok x :=
  (claim8_get_cryptocurrency_ranges exDb8 1).2.1 (by decide) (by decide)

/-- **C9 counterexample.** On a validly signed, unexpired token whose
payload lacks a `sub` claim, `jwt.decode` succeeds (so no `JWTError` is
caught) and `payload["sub"]` raises a `KeyError` past the caller — the
function does not return a sentinel for every input. -/
theorem claim9_counterexample :
    jwtDecode exTok9 "s" ["HS256"] 0 = .ok [("exp", .num 99)] ∧
    get_username_by_token "s" 0 exTok9 = .error "KeyError: sub" :=
  ⟨rfl, rfl⟩

/-- **C9 amended.** `get_username_by_token` returns the `sub` claim of a
token that verifies, and `None` whenever `jwt.decode` fails (invalid,
expired or unparseable token); however, when the token decodes successfully
but its payload has no `sub` claim, a `KeyError` escapes past the caller. -/
theorem claim9_username_from_token (secret : String) (now : Nat) (token : Token) :
    (∀ e, jwtDecode token secret ["HS256"] now = .error e →
      get_username_by_token secret now token = .ok none) ∧
    (∀ payload v, jwtDecode token secret ["HS256"] now = .ok payload →
      payload.lookup "sub" = some v →
      get_username_by_token secret now token = .ok (some v)) ∧
    (∀ payload, jwtDecode token secret ["HS256"] now = .ok payload →
      payload.lookup "sub" = none →
      get_username_by_token secret now token = .error "KeyError: sub") := by
  refine ⟨?_, ?_, ?_⟩
  · intro e he
    unfold get_username_by_token
    rw [he]
  · intro payload v hok hsub
    simp [get_username_by_token, hok, hsub]
  · intro payload hok hsub
    simp [get_username_by_token, hok, hsub]

/-- Witness for the amended C9: a well-formed token round-trips its
subject. -/
theorem claim9_witness :
    get_username_by_token "s" 0 exTok9b = .ok (some (.str "alice")) :=
  (claim9_username_from_token "s" 0 exTok9b).2.1 [("sub", .str "alice")]
    (.str "alice") rfl rfl

/-- **C10 counterexample.** The two failing `authenticate_user` calls — an
unknown username and a known username with a non-verifying password —
produce different errors, so the error does distinguish the two failure
causes (and even echoes the username). -/
theorem claim10_counterexample :
    authenticate_user exVerifyFalse exDb10 "bob" "pw" =
      .error "User with username bob not found" ∧
    authenticate_user exVerifyFalse exDb10 "alice" "pw" =
      .error "Incorrect password" ∧
    "User with username bob not found" ≠ "Incorrect password" :=
  ⟨rfl, rfl, by decide⟩

/-- **C10 amended.** Both failure causes of `authenticate_user` raise the
same kind of generic exception, and `login_for_access_token` surfaces
either as the same 400 response shape; but the exception messages differ
between the causes (`User with username ... not found` versus
`Incorrect password`), so the error text does distinguish them. -/
theorem claim10_authenticate_errors (verify : String → String → Bool)
    (db : DBState) (secret : String) (now ttl : Nat)
    (username password : String) :
    (get_user_by_username_from_db db username = none →
      authenticate_user verify db username password =
        .error ("User with username " ++ username ++ " not found")) ∧
    (∀ user, get_user_by_username_from_db db username = some user →
      verify password user.hash_password = false →
      authenticate_user verify db username password =
        .error "Incorrect password") ∧
    (∀ e, authenticate_user verify db username password = .error e →
      login_for_access_token verify secret now ttl db username password =
        .badRequest e) ∧
    ("User with username " ++ username ++ " not found") ≠ "Incorrect password" := by
  refine ⟨?_, ?_, ?_, ?_⟩
  · intro h
    simp [authenticate_user, h]
  · intro user h hv
    simp [authenticate_user, h, hv]
  · intro e he
    unfold login_for_access_token
    rw [he]
  · intro h
    have hlen := congrArg String.length h
    have h1 : ("User with username " : String).length = 19 := rfl
    have h2 : (" not found" : String).length = 10 := rfl
    have h3 : ("Incorrect password" : String).length = 18 := rfl
    rw [String.length_append, String.length_append, h1, h2, h3] at hlen
    omega

/-- Witness for the amended C10: the unknown-username failure message at a
concrete username. -/
theorem claim10_witness :
    authenticate_user exVerifyFalse exDb10 "carol" "pw" =
      .error ("User with username " ++ "carol" ++ " not found") :=
  (claim10_authenticate_errors exVerifyFalse exDb10 "secret" 0 0 "carol" "pw").1 rfl

end AssetWatch
